import Mathlib

set_option maxRecDepth 100000

/-
  Shallow embedding of src/server.mjs (yorisoi-voice-ai).

  The server keeps a process-wide sentiment score and history, scores each
  incoming message by keyword hits, tags it against a fixed ICF lexicon,
  checks a crisis-keyword list, and either answers with a fixed safety
  message or forwards the message to an external completion gateway,
  optionally appending a breathing guide, before synthesizing audio.

  External gateways (OpenAI completion and TTS) are modelled as oracle
  functions returning `Option String` (`none` = the call throws).
-/

namespace Yorisoi

/-! ## Substring matching (JS `String.prototype.includes`) -/

/-- `startsWithL w t` is true when the char list `w` is an initial segment of `t`. -/
def startsWithL : List Char → List Char → Bool
  | [], _ => true
  | _ :: _, [] => false
  | a :: as, b :: bs => a == b && startsWithL as bs

/-- `occursIn w t` is true when `w` occurs contiguously inside `t`. -/
def occursIn (w : List Char) : List Char → Bool
  | [] => w.isEmpty
  | c :: rest => startsWithL w (c :: rest) || occursIn w rest

/-- JS `t.includes(w)` : `w` occurs in `t` as a substring. -/
def includesStr (t w : String) : Bool :=
  occursIn w.data t.data

/-! ## Static lexicons (src/server.mjs lines 30-34) -/

def negativeWords : List String :=
  ["疲れ", "つらい", "不安", "悲しい", "こわい", "もうだめ", "消えたい", "死にたい", "いやだ"]

def positiveWords : List String :=
  ["うれしい", "楽しい", "安心", "大丈夫", "できた", "ありがとう", "ほっと"]

def dangerWords : List String :=
  ["死にたい", "消えたい", "自殺", "限界", "もう無理"]

/-! ## Sentiment state (src/server.mjs lines 23-24) -/

structure HistEntry where
  time : Nat
  score : Int
deriving DecidableEq

structure EmotionState where
  emotionScore : Int
  emotionHistory : List HistEntry
deriving DecidableEq

/-- `let emotionScore = 70; let emotionHistory = [];` -/
def initialState : EmotionState := ⟨70, []⟩

/-! ## updateEmotionScore (src/server.mjs lines 39-54) -/

def updateEmotionScore (now : Nat) (text : String) (s : EmotionState) :
    Int × EmotionState :=
  let score0 := s.emotionScore
  let score1 := negativeWords.foldl
    (fun sc w => if includesStr text w then sc - 5 else sc) score0
  let score2 := positiveWords.foldl
    (fun sc w => if includesStr text w then sc + 5 else sc) score1
  let score := max 0 (min 100 score2)
  (score, ⟨score, s.emotionHistory ++ [⟨now, score⟩]⟩)

/-- Running a sequence of updates, collecting each returned score. -/
def runUpdates : List (Nat × String) → EmotionState → List Int × EmotionState
  | [], s => ([], s)
  | (n, t) :: rest, s =>
    let p := updateEmotionScore n t s
    let q := runUpdates rest p.2
    (p.1 :: q.1, q.2)

/-! ## ICF tagging (src/server.mjs lines 59-72) -/

structure DomainTag where
  code : String
  label : String
deriving DecidableEq

/-- The lexicon loaded from icf-tags.json (contents external to the repo). -/
structure IcfTags where
  sleep : DomainTag
  emotion : DomainTag
  stress : DomainTag
  learning : DomainTag
  school : DomainTag
  relationships : DomainTag
  family : DomainTag
  work : DomainTag

/-- Literal translation of the `detected.push` chain of `detectICF`. -/
def detectICF (tags : IcfTags) (text : String) : List DomainTag :=
  (if includesStr text "眠" || includesStr text "寝" then [tags.sleep] else []) ++
  (if includesStr text "不安" || includesStr text "怖" then [tags.emotion] else []) ++
  (if includesStr text "疲" || includesStr text "忙" then [tags.stress] else []) ++
  (if includesStr text "勉強" || includesStr text "テスト" then [tags.learning] else []) ++
  (if includesStr text "学校" then [tags.school] else []) ++
  (if includesStr text "友" || includesStr text "人間関係" then [tags.relationships] else []) ++
  (if includesStr text "家" || includesStr text "親" then [tags.family] else []) ++
  (if includesStr text "仕事" || includesStr text "職場" then [tags.work] else [])

/-- The eight categories with their keyword lists, in declaration order. -/
def icfCategories (tags : IcfTags) : List (List String × DomainTag) :=
  [(["眠", "寝"], tags.sleep),
   (["不安", "怖"], tags.emotion),
   (["疲", "忙"], tags.stress),
   (["勉強", "テスト"], tags.learning),
   (["学校"], tags.school),
   (["友", "人間関係"], tags.relationships),
   (["家", "親"], tags.family),
   (["仕事", "職場"], tags.work)]

/-! ## Danger detection and static replies (src/server.mjs lines 76-106) -/

def detectDanger (text : String) : Bool :=
  dangerWords.any (fun w => includesStr text w)

def dangerResponse : String :=
  "今、とてもつらい気持ちなのですね。あなたの気持ちは大切で、" ++
  "ひとりで抱えなくて大丈夫です。\n\n" ++
  "安心できる大人や、信頼できる先生・家族と一緒に話してもらえると安全です。" ++
  "私はここにいますが、命に関わる内容では専門家の力も必要です。\n\n" ++
  "まずは深呼吸を一つしてみませんか？\n" ++
  "吸う息を４つ数えながら、吐く息を６つ数えながら、ゆっくりで大丈夫です。"

def breathingGuide : String :=
  "\n\n少しだけ呼吸を整える時間を一緒にとりましょう。" ++
  "無理のない範囲で大丈夫です。\n" ++
  "① 鼻から4秒かけて吸う\n" ++
  "② 2秒そのまま\n" ++
  "③ 口から6秒かけてゆっくり吐く\n" ++
  "あなたのペースでOKですからね。"

/-! ## The /api/chat handler (src/server.mjs lines 158-205) -/

structure ChatOk where
  text : String
  audio : String
  danger : Bool
  score : Int
  icf : List DomainTag
deriving DecidableEq

inductive ChatResult where
  | ok (r : ChatOk)
  | serverError
deriving DecidableEq

/-- Full outcome of one request: the HTTP-level result, the post-request
sentiment state, and the traces of calls made to the two gateways. -/
structure ChatOutcome where
  result : ChatResult
  state : EmotionState
  genCalls : List (String × List DomainTag × Int)
  ttsCalls : List String
deriving DecidableEq

/-- One run of `app.post("/api/chat")`.  `message = none` models a body with
no `message` field (`req.body.message || ""`); `gen` is
`generateAIResponse`, `tts` is `synthesizeVoice`, each `none` when the
underlying call throws (caught as the 500 `server_error` response). -/
def chatHandler (tags : IcfTags)
    (gen : String → List DomainTag → Int → Option String)
    (tts : String → Option String)
    (now : Nat) (message : Option String) (s : EmotionState) : ChatOutcome :=
  let userText := message.getD ""
  let p := updateEmotionScore now userText s
  let score := p.1
  let s1 := p.2
  let icfList := detectICF tags userText
  if detectDanger userText then
    match tts dangerResponse with
    | some voice =>
      ⟨ChatResult.ok ⟨dangerResponse, voice, true, score, icfList⟩, s1, [], [dangerResponse]⟩
    | none => ⟨ChatResult.serverError, s1, [], [dangerResponse]⟩
  else
    match gen userText icfList score with
    | none => ⟨ChatResult.serverError, s1, [(userText, icfList, score)], []⟩
    | some ai0 =>
      let aiText := if score < 50 then ai0 ++ breathingGuide else ai0
      match tts aiText with
      | some voice =>
        ⟨ChatResult.ok ⟨aiText, voice, false, score, icfList⟩, s1,
          [(userText, icfList, score)], [aiText]⟩
      | none => ⟨ChatResult.serverError, s1, [(userText, icfList, score)], [aiText]⟩

/-! ## Sample gateway oracles and lexicon, for concrete instantiations -/

def sampleGen : String → List DomainTag → Int → Option String :=
  fun _ _ _ => some "応答"

def sampleTts : String → Option String :=
  fun t => some t

def sampleTags : IcfTags :=
  ⟨⟨"b134", "睡眠"⟩, ⟨"b152", "情動"⟩, ⟨"b130", "活力"⟩, ⟨"d140", "学習"⟩,
   ⟨"d820", "学校"⟩, ⟨"d750", "対人関係"⟩, ⟨"d760", "家族"⟩, ⟨"d850", "仕事"⟩⟩

/-! ## Substring characterization -/

theorem startsWithL_iff (w t : List Char) :
    startsWithL w t = true ↔ ∃ r, w ++ r = t := by
  induction w generalizing t with
  | nil => simp [startsWithL]
  | cons a as ih =>
    cases t with
    | nil => simp [startsWithL]
    | cons b bs =>
      simp only [startsWithL, Bool.and_eq_true, beq_iff_eq, ih]
      constructor
      · rintro ⟨rfl, r, rfl⟩
        exact ⟨r, rfl⟩
      · rintro ⟨r, h⟩
        injection h with h1 h2
        exact ⟨h1, r, h2⟩

theorem occursIn_nil_iff (w : List Char) : occursIn w [] = true ↔ w = [] := by
  cases w <;> simp [occursIn, List.isEmpty]

theorem occursIn_iff (w t : List Char) :
    occursIn w t = true ↔ ∃ l r, l ++ w ++ r = t := by
  induction t with
  | nil =>
    rw [occursIn_nil_iff]
    constructor
    · rintro rfl
      exact ⟨[], [], rfl⟩
    · rintro ⟨l, r, h⟩
      rcases List.append_eq_nil.mp h with ⟨h1, h2⟩
      exact (List.append_eq_nil.mp h1).2
  | cons c rest ih =>
    simp only [occursIn, Bool.or_eq_true, startsWithL_iff, ih]
    constructor
    · rintro (⟨r, h⟩ | ⟨l, r, h⟩)
      · exact ⟨[], r, by simpa using h⟩
      · exact ⟨c :: l, r, by simp [h]⟩
    · rintro ⟨l, r, h⟩
      cases l with
      | nil =>
        left
        exact ⟨r, by simpa using h⟩
      | cons x xs =>
        right
        injection h with h1 h2
        exact ⟨xs, r, h2⟩

theorem includesStr_iff (t w : String) :
    includesStr t w = true ↔ ∃ l r, l ++ w.data ++ r = t.data :=
  occursIn_iff w.data t.data

theorem detectDanger_eq_true_iff (text : String) :
    detectDanger text = true ↔
      ∃ w ∈ dangerWords, ∃ l r, l ++ w.data ++ r = text.data := by
  simp only [detectDanger, List.any_eq_true, includesStr_iff]

/-! ## Facts about updateEmotionScore -/

theorem updateEmotionScore_mem_range (now : Nat) (text : String) (s : EmotionState) :
    0 ≤ (updateEmotionScore now text s).1 ∧ (updateEmotionScore now text s).1 ≤ 100 := by
  simp only [updateEmotionScore]
  omega

theorem updateEmotionScore_state_score (now : Nat) (text : String) (s : EmotionState) :
    (updateEmotionScore now text s).2.emotionScore = (updateEmotionScore now text s).1 := rfl

theorem runUpdates_scores_range (msgs : List (Nat × String)) :
    ∀ (s : EmotionState), ∀ sc ∈ (runUpdates msgs s).1, 0 ≤ sc ∧ sc ≤ 100 := by
  induction msgs with
  | nil =>
    intro s sc h
    simp [runUpdates] at h
  | cons m rest ih =>
    intro s sc h
    obtain ⟨n, t⟩ := m
    simp only [runUpdates, List.mem_cons] at h
    rcases h with rfl | h
    · exact updateEmotionScore_mem_range n t s
    · exact ih _ sc h

/-! ## Claim C1 -/

/-- C1: for every request whose message text contains at least one configured
crisis keyword as a substring, the completion gateway is never invoked, the
only speech-synthesis call receives exactly the fixed static safety message,
and any success response carries that safety message verbatim. -/
theorem C1_crisis_bypasses_gateway (tags : IcfTags)
    (gen : String → List DomainTag → Int → Option String)
    (tts : String → Option String) (now : Nat) (message : Option String)
    (s : EmotionState)
    (hw : ∃ w ∈ dangerWords, ∃ l r, l ++ w.data ++ r = (message.getD "").data) :
    (chatHandler tags gen tts now message s).genCalls = [] ∧
    (chatHandler tags gen tts now message s).ttsCalls = [dangerResponse] ∧
    ∀ r, (chatHandler tags gen tts now message s).result = ChatResult.ok r →
      r.text = dangerResponse := by
  have hd : detectDanger (message.getD "") = true :=
    (detectDanger_eq_true_iff _).mpr hw
  simp only [chatHandler, hd, if_true]
  rcases htts : tts dangerResponse with _ | voice <;> simp_all

/-- C1 witness: the concrete message 死にたい triggers the danger branch. -/
theorem C1_crisis_bypasses_gateway_witness :
    (∃ w ∈ dangerWords, ∃ l r,
        l ++ w.data ++ r = ((some "死にたい" : Option String).getD "").data) ∧
    (chatHandler sampleTags sampleGen sampleTts 0 (some "死にたい") initialState).genCalls
        = [] ∧
    (chatHandler sampleTags sampleGen sampleTts 0 (some "死にたい") initialState).ttsCalls
        = [dangerResponse] ∧
    ∀ r, (chatHandler sampleTags sampleGen sampleTts 0 (some "死にたい")
        initialState).result = ChatResult.ok r → r.text = dangerResponse := by
  have hw : ∃ w ∈ dangerWords, ∃ l r,
      l ++ w.data ++ r = ((some "死にたい" : Option String).getD "").data :=
    ⟨"死にたい", by decide, [], [], by decide⟩
  exact ⟨hw, C1_crisis_bypasses_gateway sampleTags sampleGen sampleTts 0
    (some "死にたい") initialState hw⟩

/-! ## Claim C2 -/

/-- C2 counterexample: on the danger input もう無理、消えたい the success
response text is the fixed safety message alone: it is not the safety message
with the breathing guide appended, and it lacks the guide's 2-second hold
step. -/
theorem C2_counterexample :
    (chatHandler sampleTags sampleGen sampleTts 0 (some "もう無理、消えたい")
        initialState).result
      = ChatResult.ok ⟨dangerResponse, dangerResponse, true, 65, []⟩ ∧
    dangerResponse ≠ dangerResponse ++ breathingGuide ∧
    includesStr dangerResponse "2秒そのまま" = false :=
  ⟨by decide, by decide, by decide⟩

/-- C2 (amended): when danger is detected, the success response text is
exactly the fixed safety message with `danger` set; the separate structured
breathing guide is not appended to it. -/
theorem C2_danger_reply (tags : IcfTags)
    (gen : String → List DomainTag → Int → Option String)
    (tts : String → Option String) (now : Nat) (message : Option String)
    (s : EmotionState)
    (hd : detectDanger (message.getD "") = true) :
    ∀ r, (chatHandler tags gen tts now message s).result = ChatResult.ok r →
      r.text = dangerResponse ∧ r.danger = true ∧
      r.text ≠ dangerResponse ++ breathingGuide := by
  simp only [chatHandler, hd, if_true]
  rcases htts : tts dangerResponse with _ | voice <;> simp_all
  intro hcontra
  have hlen := congrArg String.length hcontra
  rw [String.length_append] at hlen
  have hbg : 0 < breathingGuide.length := by decide
  omega

/-- C2 witness: concrete danger request settling the amended statement. -/
theorem C2_danger_reply_witness :
    ∃ r, (chatHandler sampleTags sampleGen sampleTts 0 (some "もう無理、消えたい")
        initialState).result = ChatResult.ok r ∧
      r.text = dangerResponse ∧ r.danger = true := by
  refine ⟨⟨dangerResponse, dangerResponse, true, 65, []⟩, by decide, ?_⟩
  have h := C2_danger_reply sampleTags sampleGen sampleTts 0
    (some "もう無理、消えたい") initialState (by decide)
    ⟨dangerResponse, dangerResponse, true, 65, []⟩ (by decide)
  exact ⟨h.1, h.2.1⟩

/-! ## Claim C3 -/

/-- C3: along any sequence of updates from a state whose score lies in
[0,100], every score returned by an update is an integer in [0,100]. -/
theorem C3_score_always_clamped (msgs : List (Nat × String)) (s : EmotionState)
    (_hlo : 0 ≤ s.emotionScore) (_hhi : s.emotionScore ≤ 100) :
    ∀ sc ∈ (runUpdates msgs s).1, 0 ≤ sc ∧ sc ≤ 100 :=
  runUpdates_scores_range msgs s

/-- C3 witness: after the update on つらい the returned score 65 is in
range. -/
theorem C3_score_always_clamped_witness :
    0 ≤ initialState.emotionScore ∧ initialState.emotionScore ≤ 100 ∧
    (65 : Int) ∈ (runUpdates [(0, "つらい")] initialState).1 ∧
    0 ≤ (65 : Int) ∧ (65 : Int) ≤ 100 := by
  refine ⟨by decide, by decide, by decide, ?_, ?_⟩
  · exact (C3_score_always_clamped [(0, "つらい")] initialState (by decide)
      (by decide) 65 (by decide)).1
  · exact (C3_score_always_clamped [(0, "つらい")] initialState (by decide)
      (by decide) 65 (by decide)).2

/-! ## Claim C4 -/

/-- C4: detectDanger returns true iff some configured crisis keyword occurs
in the text as a substring; each configured keyword taken alone triggers it,
and a text containing none of them does not. -/
theorem C4_detectDanger_iff :
    (∀ text, detectDanger text = true ↔
        ∃ w ∈ dangerWords, ∃ l r, l ++ w.data ++ r = text.data) ∧
    (∀ w ∈ dangerWords, detectDanger w = true) ∧
    (∀ text, (∀ w ∈ dangerWords, ¬ ∃ l r, l ++ w.data ++ r = text.data) →
        detectDanger text = false) := by
  refine ⟨detectDanger_eq_true_iff, by decide, ?_⟩
  intro text h
  cases ht : detectDanger text with
  | false => rfl
  | true =>
    obtain ⟨w, hwm, hsub⟩ := (detectDanger_eq_true_iff text).mp ht
    exact absurd hsub (h w hwm)

/-- C4 witness: 自殺 alone is flagged; an unrelated greeting is not. -/
theorem C4_detectDanger_iff_witness :
    detectDanger "自殺" = true ∧ detectDanger "こんにちは" = false := by
  constructor
  · exact C4_detectDanger_iff.2.1 "自殺" (by decide)
  · refine C4_detectDanger_iff.2.2 "こんにちは" ?_
    intro w hw hex
    have hinc : includesStr "こんにちは" w = true := (includesStr_iff _ _).mpr hex
    revert hinc
    fin_cases hw <;> decide

/-! ## Claim C5 -/

/-- In the non-danger branch, any success response text is the completion
output with the guide appended exactly below score 50. -/
theorem chatHandler_ok_text (tags : IcfTags)
    (gen : String → List DomainTag → Int → Option String)
    (tts : String → Option String) (now : Nat) (message : Option String)
    (s : EmotionState)
    (hnd : detectDanger (message.getD "") = false) (ai : String)
    (hgen : gen (message.getD "") (detectICF tags (message.getD ""))
        (updateEmotionScore now (message.getD "") s).1 = some ai) :
    ∀ r, (chatHandler tags gen tts now message s).result = ChatResult.ok r →
      r.text = if (updateEmotionScore now (message.getD "") s).1 < 50
        then ai ++ breathingGuide else ai := by
  intro r hr
  simp only [chatHandler, hnd, Bool.false_eq_true, if_false, hgen] at hr
  split at hr <;> simp_all
  rw [← hr]

/-- C5: when danger is not detected and the completion gateway returns `ai`,
the success response text is `ai ++ breathingGuide` when the updated score is
below 50 and exactly `ai` when it is at least 50. -/
theorem C5_breathing_guide_iff_low (tags : IcfTags)
    (gen : String → List DomainTag → Int → Option String)
    (tts : String → Option String) (now : Nat) (message : Option String)
    (s : EmotionState)
    (hnd : detectDanger (message.getD "") = false) (ai : String)
    (hgen : gen (message.getD "") (detectICF tags (message.getD ""))
        (updateEmotionScore now (message.getD "") s).1 = some ai) :
    ∀ r, (chatHandler tags gen tts now message s).result = ChatResult.ok r →
      ((updateEmotionScore now (message.getD "") s).1 < 50 →
          r.text = ai ++ breathingGuide) ∧
      (50 ≤ (updateEmotionScore now (message.getD "") s).1 → r.text = ai) := by
  intro r hr
  have h := chatHandler_ok_text tags gen tts now message s hnd ai hgen r hr
  constructor
  · intro hlt
    rw [h, if_pos hlt]
  · intro hge
    rw [h, if_neg (not_lt.mpr hge)]

/-- C5 witness: a five-negative-keyword message drops the score to 45, so
the breathing guide is appended to the completion output. -/
theorem C5_breathing_guide_iff_low_witness :
    ∃ r, (chatHandler sampleTags sampleGen sampleTts 0
        (some "疲れてつらいし不安で悲しいしこわい") initialState).result
      = ChatResult.ok r ∧ r.text = "応答" ++ breathingGuide := by
  refine ⟨⟨"応答" ++ breathingGuide, "応答" ++ breathingGuide, false, 45,
    [sampleTags.emotion, sampleTags.stress]⟩, by decide, ?_⟩
  have h := C5_breathing_guide_iff_low sampleTags sampleGen sampleTts 0
    (some "疲れてつらいし不安で悲しいしこわい") initialState (by decide) "応答" rfl
    ⟨"応答" ++ breathingGuide, "応答" ++ breathingGuide, false, 45,
      [sampleTags.emotion, sampleTags.stress]⟩ (by decide)
  exact h.1 (by decide)

/-! ## Claim C6 -/

/-- Filtering a cons and projecting: the head contributes a singleton chunk
exactly when the predicate holds. -/
theorem filter_map_cons {α β : Type} (p : α × β → Bool) (x : α × β)
    (l : List (α × β)) :
    ((x :: l).filter p).map Prod.snd
      = (if p x = true then [x.2] else []) ++ (l.filter p).map Prod.snd := by
  by_cases h : p x = true <;> simp [List.filter_cons, h]

/-- detectICF is the declaration-ordered category list filtered by keyword
occurrence, projected to the tags. -/
theorem detectICF_eq_filter (tags : IcfTags) (text : String) :
    detectICF tags text =
      ((icfCategories tags).filter
        (fun p => p.1.any (fun w => includesStr text w))).map Prod.snd := by
  simp only [detectICF, icfCategories, filter_map_cons, List.filter_nil,
    List.map_nil, List.append_nil, List.any_cons, List.any_nil, Bool.or_false,
    List.append_assoc]

/-- C6: detectICF is a pure function of the text returning between 0 and 8
tags in the fixed category-declaration order, each tag drawn from the fixed
8-category set, and a category appears exactly when one of its keywords
occurs in the text (stated as the filter equation). -/
theorem C6_detectICF_spec (tags : IcfTags) (text : String) :
    detectICF tags text =
      ((icfCategories tags).filter
        (fun p => p.1.any (fun w => includesStr text w))).map Prod.snd ∧
    (detectICF tags text).length ≤ 8 ∧
    ∀ tg ∈ detectICF tags text, tg ∈ (icfCategories tags).map Prod.snd := by
  refine ⟨detectICF_eq_filter tags text, ?_, ?_⟩
  · rw [detectICF_eq_filter tags text, List.length_map]
    calc ((icfCategories tags).filter
          (fun p => p.1.any (fun w => includesStr text w))).length
        ≤ (icfCategories tags).length := List.length_filter_le _ _
      _ = 8 := rfl
  · intro tg htg
    rw [detectICF_eq_filter tags text] at htg
    obtain ⟨p, hp, rfl⟩ := List.mem_map.mp htg
    exact List.mem_map.mpr ⟨p, List.mem_of_mem_filter hp, rfl⟩

/-- C6 witness: on 学校 the tagger returns exactly the school tag, which is
in the fixed category set. -/
theorem C6_detectICF_spec_witness :
    detectICF sampleTags "学校" = [sampleTags.school] ∧
    sampleTags.school ∈ (icfCategories sampleTags).map Prod.snd := by
  refine ⟨by decide, ?_⟩
  exact (C6_detectICF_spec sampleTags "学校").2.2 sampleTags.school (by decide)

/-! ## Claim C7 -/

/-- A fold over keywords none of which hits the text leaves the accumulator
unchanged. -/
theorem foldl_step_id {α : Type} (c : α → Bool) (g : Int → α → Int) :
    ∀ (ws : List α) (x : Int), (∀ w ∈ ws, c w = false) →
      ws.foldl (fun sc w => if c w then g sc w else sc) x = x := by
  intro ws
  induction ws with
  | nil =>
    intro x _
    rfl
  | cons a as ih =>
    intro x h
    have ha : c a = false := h a (List.mem_cons_self a as)
    rw [List.foldl_cons, if_neg (by simp [ha])]
    exact ih x fun w hw => h w (List.mem_cons_of_mem a hw)

/-- With no keyword hits the returned score is the clamped previous score. -/
theorem updateEmotionScore_no_keywords (now : Nat) (text : String)
    (s : EmotionState)
    (hneg : ∀ w ∈ negativeWords, includesStr text w = false)
    (hpos : ∀ w ∈ positiveWords, includesStr text w = false)
    (hlo : 0 ≤ s.emotionScore) (hhi : s.emotionScore ≤ 100) :
    (updateEmotionScore now text s).1 = s.emotionScore := by
  simp only [updateEmotionScore]
  rw [foldl_step_id (fun w => includesStr text w) (fun sc _ => sc - 5)
      negativeWords s.emotionScore hneg,
    foldl_step_id (fun w => includesStr text w) (fun sc _ => sc + 5)
      positiveWords s.emotionScore hpos]
  omega

/-- C7: for text containing no negative and no positive keyword, the update
returns the previous score and stores it back unchanged. -/
theorem C7_no_keywords_unchanged (now : Nat) (text : String) (s : EmotionState)
    (hneg : ∀ w ∈ negativeWords, includesStr text w = false)
    (hpos : ∀ w ∈ positiveWords, includesStr text w = false)
    (hlo : 0 ≤ s.emotionScore) (hhi : s.emotionScore ≤ 100) :
    (updateEmotionScore now text s).1 = s.emotionScore ∧
    (updateEmotionScore now text s).2.emotionScore = s.emotionScore := by
  have h := updateEmotionScore_no_keywords now text s hneg hpos hlo hhi
  exact ⟨h, (updateEmotionScore_state_score now text s).trans h⟩

/-- C7 witness: a keyword-free greeting leaves the initial score at 70. -/
theorem C7_no_keywords_unchanged_witness :
    (updateEmotionScore 0 "こんにちは" initialState).1
        = initialState.emotionScore ∧
    (updateEmotionScore 0 "こんにちは" initialState).2.emotionScore
        = initialState.emotionScore :=
  C7_no_keywords_unchanged 0 "こんにちは" initialState (by decide) (by decide)
    (by decide) (by decide)

/-! ## Claim C8 -/

/-- C8: a chat request whose body lacks the message field is handled as the
empty string and never rejected: the completion gateway is invoked once with
empty user text, the stored score is unchanged, any success response reports
no danger, no tags, and the unchanged score, and whenever both gateways
succeed the request does succeed. -/
theorem C8_missing_message (tags : IcfTags)
    (gen : String → List DomainTag → Int → Option String)
    (tts : String → Option String) (now : Nat) (s : EmotionState)
    (hlo : 0 ≤ s.emotionScore) (hhi : s.emotionScore ≤ 100) :
    (chatHandler tags gen tts now none s).genCalls
        = [("", [], s.emotionScore)] ∧
    (chatHandler tags gen tts now none s).state.emotionScore
        = s.emotionScore ∧
    (∀ r, (chatHandler tags gen tts now none s).result = ChatResult.ok r →
        r.danger = false ∧ r.icf = [] ∧ r.score = s.emotionScore) ∧
    (∀ a0, gen "" [] s.emotionScore = some a0 →
      ∀ v0, tts (if s.emotionScore < 50 then a0 ++ breathingGuide else a0)
          = some v0 →
        (chatHandler tags gen tts now none s).result
          = ChatResult.ok
              ⟨if s.emotionScore < 50 then a0 ++ breathingGuide else a0,
                v0, false, s.emotionScore, []⟩) := by
  have hsc : (updateEmotionScore now "" s).1 = s.emotionScore :=
    updateEmotionScore_no_keywords now "" s (by decide) (by decide) hlo hhi
  have hs2 : (updateEmotionScore now "" s).2.emotionScore = s.emotionScore :=
    (updateEmotionScore_state_score now "" s).trans hsc
  have hicf : detectICF tags "" = [] := rfl
  have hnd : detectDanger "" = false := rfl
  simp only [chatHandler, Option.getD_none, hicf, hnd, Bool.false_eq_true,
    if_false, hsc]
  rcases hg : gen "" [] s.emotionScore with _ | a
  · dsimp only
    refine ⟨rfl, hs2, ?_, ?_⟩
    · intro r h
      exact ChatResult.noConfusion h
    · intro a0 ha0
      exact Option.noConfusion ha0
  · dsimp only
    rcases ht : tts (if s.emotionScore < 50 then a ++ breathingGuide else a)
      with _ | v
    · dsimp only
      refine ⟨rfl, hs2, ?_, ?_⟩
      · intro r h
        exact ChatResult.noConfusion h
      · intro a0 ha0 v0 hv0
        injection ha0 with hae
        subst hae
        exact Option.noConfusion (ht.symm.trans hv0)
    · dsimp only
      refine ⟨rfl, hs2, ?_, ?_⟩
      · intro r h
        injection h with he
        subst he
        exact ⟨rfl, rfl, rfl⟩
      · intro a0 ha0 v0 hv0
        injection ha0 with hae
        subst hae
        have hve : some v = some v0 := ht.symm.trans hv0
        injection hve with hve2
        subst hve2
        rfl

/-- C8 witness: a concrete bodyless request with sample gateways succeeds
with empty tags and unchanged score 70. -/
theorem C8_missing_message_witness :
    (chatHandler sampleTags sampleGen sampleTts 0 none initialState).genCalls
        = [("", [], initialState.emotionScore)] ∧
    (chatHandler sampleTags sampleGen sampleTts 0 none
        initialState).state.emotionScore = initialState.emotionScore ∧
    (chatHandler sampleTags sampleGen sampleTts 0 none initialState).result
        = ChatResult.ok ⟨"応答", "応答", false, 70, []⟩ := by
  have h := C8_missing_message sampleTags sampleGen sampleTts 0 initialState
    (by decide) (by decide)
  refine ⟨h.1, h.2.1, ?_⟩
  have h4 := h.2.2.2 "応答" rfl "応答" (by decide)
  rw [if_neg (by decide)] at h4
  exact h4

/-! ## Claim C9 -/

/-- C9: every update appends exactly one history entry carrying the returned
score, and the chat handler keeps the updated sentiment state in every
outcome, including the gateway-failure error outcomes (no rollback). -/
theorem C9_mutation_persists (tags : IcfTags)
    (gen : String → List DomainTag → Int → Option String)
    (tts : String → Option String) (now : Nat) (text : String)
    (message : Option String) (s : EmotionState) :
    (updateEmotionScore now text s).2.emotionHistory
        = s.emotionHistory ++ [⟨now, (updateEmotionScore now text s).1⟩] ∧
    (chatHandler tags gen tts now message s).state
        = (updateEmotionScore now (message.getD "") s).2 := by
  refine ⟨rfl, ?_⟩
  simp only [chatHandler]
  split
  · split <;> rfl
  · split
    · rfl
    · split <;> rfl

/-! ## Claim C10 -/

/-- C10: the process starts with score 70 and empty history, so the first
keyword-free request returns score 70. -/
theorem C10_initial_state (now : Nat) (text : String)
    (hneg : ∀ w ∈ negativeWords, includesStr text w = false)
    (hpos : ∀ w ∈ positiveWords, includesStr text w = false) :
    initialState.emotionScore = 70 ∧ initialState.emotionHistory = [] ∧
    (updateEmotionScore now text initialState).1 = 70 :=
  ⟨rfl, rfl, updateEmotionScore_no_keywords now text initialState hneg hpos
    (by decide) (by decide)⟩

/-- C10 witness: the keyword-free greeting returns 70 on the first request. -/
theorem C10_initial_state_witness :
    initialState.emotionScore = 70 ∧ initialState.emotionHistory = [] ∧
    (updateEmotionScore 0 "こんにちは" initialState).1 = 70 :=
  C10_initial_state 0 "こんにちは" (by decide) (by decide)

end Yorisoi
